import Mathlib

/-!
Shallow embedding of the SolanaProvider wallet client
(`src/solana.ts`, with overlay helpers from `src/lib/frame.js`).

The embedding follows the source closely:

* JSON values exchanged with the backend are modelled by `Json`;
  JavaScript truthiness of such a value is `jsTruthy`.
* The provider's rejection reasons are gathered in `ProviderError`;
  `errorReason` maps each to the literal value the source rejects/throws
  with (`none` for the bare `reject()` of the handshake-cancel path).
* Observable side effects (overlay creation/attachment/detachment,
  listener registration/removal, the various HTTP calls) are recorded as
  an explicit `Effect` trace.
* Single-threaded event-loop behaviour (the `setInterval` poll of
  `handleSignAndSendTransaction`, the one-shot `message` listener of
  `connect`) is modelled by explicit step functions on small state
  records; one application of the step function is one timer tick or one
  delivered message, with each poll's HTTP response processed within its
  own tick.
* Machine integers do not occur: lengths and indices are `Nat`,
  byte values are `Nat` below 256 produced by the base58 decoder.
-/

/-- A JSON value, as produced by `response.json()`. -/
inductive Json where
  | null : Json
  | bool (b : Bool) : Json
  | num (n : Int) : Json
  | str (s : String) : Json
  | arr (elems : List Json) : Json
  | obj (fields : List (String × Json)) : Json

/-- JavaScript property access `j["k"]`: `some` when the field is present
on an object, `none` (i.e. `undefined`) otherwise. -/
def Json.getField : Json → String → Option Json
  | .obj fields, k => fields.lookup k
  | _, _ => none

/-- JavaScript truthiness of a JSON value (`if (response) ...`). -/
def jsTruthy : Json → Bool
  | .null => false
  | .bool b => b
  | .num n => n != 0
  | .str s => s != ""
  | .arr _ => true
  | .obj _ => true

/-- The rejection/throw reasons of the provider, per the spec's taxonomy
(§7).  `errorReason` gives the literal JavaScript value each corresponds
to in the source. -/
inductive ProviderError where
  /-- `throw new Error("Blocto is program wallet, ...")` for
  `signTransaction` / `signAllTransactions`. -/
  | unsupportedMethod (m : String) : ProviderError
  /-- `reject('Currently only supported in browser')` /
  `throw new Error('Currently only supported in browser')`. -/
  | environment : ProviderError
  /-- the bare `reject()` of the handshake-cancel branch (the rejection
  carries no reason value). -/
  | handshakeCanceled : ProviderError
  /-- `reject('Transaction Canceled')` of the authorization poll. -/
  | transactionCanceled : ProviderError
deriving DecidableEq

/-- The apostrophe character, used in the unsupported-method message. -/
def apos : String := String.mk [Char.ofNat 39]

/-- The message of the environment failure in `connect` and
`handleSignAndSendTransaction`. -/
def environmentErrorMessage : String := "Currently only supported in browser"

/-- The literal reason value attached to each rejection in the source;
`none` is JavaScript `undefined`. -/
def errorReason : ProviderError → Option String
  | .unsupportedMethod m =>
      some ("Blocto is program wallet, which doesn" ++ apos ++ "t support "
        ++ m ++ ". Use signAndSendTransaction instead.")
  | .environment => some environmentErrorMessage
  | .handshakeCanceled => none
  | .transactionCanceled => some "Transaction Canceled"

/-- Observable side effects of the provider, in program order. -/
inductive Effect where
  /-- `createFrame(url)` (src/lib/frame.js). -/
  | overlayCreate (url : String) : Effect
  /-- `attachFrame` (appendChild on document.body). -/
  | overlayAttach : Effect
  /-- `detatchFrame` (removeChild). -/
  | overlayDetach : Effect
  /-- registration of the `message` handler via `addSelfRemovableHandler`. -/
  | listenerAdd : Effect
  /-- `removeListener()` inside the handler. -/
  | listenerRemove : Effect
  /-- `GET /api/solana/accounts?code=...`. -/
  | accountsFetch : Effect
  /-- `POST /api/solana/convertToWalletTx?code=...`. -/
  | convertPost : Effect
  /-- `POST /api/solana/authz?code=...` (creates the authorization). -/
  | authzPost : Effect
  /-- `POST` of a JSON-RPC envelope to the public RPC endpoint. -/
  | rpcPost (body : Json) : Effect

/-- Effects that only touch the login overlay or its message listener
(no network traffic, no signing). -/
def isUiEffect : Effect → Bool
  | .overlayCreate _ => true
  | .overlayAttach => true
  | .overlayDetach => true
  | .listenerAdd => true
  | .listenerRemove => true
  | _ => false

/-- Number of `listenerAdd` effects in a trace. -/
def countListenerAdds (t : List Effect) : Nat :=
  (t.filter (fun e => match e with | .listenerAdd => true | _ => false)).length

/-- Number of `overlayCreate` effects in a trace. -/
def countOverlayCreates (t : List Effect) : Nat :=
  (t.filter (fun e => match e with | .overlayCreate _ => true | _ => false)).length

/-! ### base58 / hex codecs (the `bs58` package and `Buffer.toString('hex')`) -/

/-- The base58 alphabet used by `bs58`. -/
def b58Alphabet : List Char :=
  "123456789ABCDEFGHJKLMNPQRSTUVWXYZabcdefghijkmnopqrstuvwxyz".toList

/-- Helper: position of a character in a list, counting from `i`. -/
def b58IndexAux (c : Char) : List Char → Nat → Option Nat
  | [], _ => none
  | a :: rest, i => if a == c then some i else b58IndexAux c rest (i + 1)

/-- Position of a character in the base58 alphabet. -/
def b58Index (c : Char) : Option Nat := b58IndexAux c b58Alphabet 0

/-- Big-endian base-256 digits of a number; the first argument is fuel
(`n` itself is always enough fuel for `n`). -/
def natToBytesBEAux : Nat → Nat → List Nat
  | 0, _ => []
  | fuel + 1, n =>
      if n = 0 then [] else natToBytesBEAux fuel (n / 256) ++ [n % 256]

/-- Big-endian byte representation of a natural number (empty for 0). -/
def natToBytesBE (n : Nat) : List Nat := natToBytesBEAux n n

/-- `bs58.decode`: `none` on a character outside the alphabet (where the
library throws), otherwise the decoded bytes (leading `'1'` characters
are leading zero bytes). -/
def bs58Decode (s : String) : Option (List Nat) :=
  let cs := s.toList
  if cs.all (fun c => (b58Index c).isSome) then
    some (List.replicate (cs.takeWhile (fun c => c == '1')).length 0 ++
      natToBytesBE (cs.foldl (fun acc c => acc * 58 + ((b58Index c).getD 0)) 0))
  else none

/-- Totalised `bs58.decode`; the exception path for invalid base58 input
is not exercised by any property below, so it is defaulted to the empty
buffer. -/
def bs58DecodeD (s : String) : List Nat := (bs58Decode s).getD []

/-- Lower-case hexadecimal digit. -/
def hexDigitChar (n : Nat) : Char :=
  if n < 10 then Char.ofNat (48 + n) else Char.ofNat (87 + n)

/-- `Buffer.prototype.toString('hex')`. -/
def bytesToHex (bs : List Nat) : String :=
  String.mk (List.flatten (bs.map (fun b => [hexDigitChar (b / 16), hexDigitChar (b % 16)])))

/-- `PublicKey.default.toBase58()`: the base58 encoding of 32 zero
bytes, i.e. 32 `'1'` characters. -/
def defaultPublicKeyBase58 : String := String.mk (List.replicate 32 '1')

/-! ### Transaction codec (`toTransaction` / `collectSignatures`)

Public keys are represented by their base58 strings throughout (so
`publicKey.toBase58()` is the identity in the model).  The binary
parsing `Message.from(Buffer.from(raw, 'hex'))` belongs to the
out-of-scope codec layer (spec §1/§6): `toTransaction` here receives the
already-parsed message, whose writability test `isAccountWritable` is an
opaque capability of the message, exactly as the source calls it. -/

/-- One compiled instruction of a wire message. -/
structure CompiledInstruction where
  programIdIndex : Nat
  accounts : List Nat
  /-- base58-encoded instruction data. -/
  data : String

/-- A parsed wire-format transaction message. -/
structure WireMessage where
  recentBlockhash : String
  /-- `message.header.numRequiredSignatures`. -/
  numRequiredSignatures : Nat
  /-- base58 public keys, in message order. -/
  accountKeys : List String
  instructions : List CompiledInstruction
  /-- `message.isAccountWritable(index)` — the message's own
  writability bitmap, treated as opaque. -/
  isAccountWritable : Nat → Bool

/-- One entry of `transaction.signatures`. -/
structure SigPubkeyPair where
  /-- `null` or the decoded signature bytes. -/
  signature : Option (List Nat)
  publicKey : String
deriving DecidableEq

/-- One account-meta entry of a reconstructed instruction. -/
structure TransactionKeyMeta where
  pubkey : String
  isSigner : Bool
  isWritable : Bool
deriving DecidableEq

/-- One reconstructed `TransactionInstruction`. -/
structure TransactionInstruction where
  keys : List TransactionKeyMeta
  programId : String
  /-- decoded instruction data bytes. -/
  data : List Nat
deriving DecidableEq

/-- The structured transaction built by `toTransaction`. -/
structure Transaction where
  recentBlockhash : String
  feePayer : Option String
  signatures : List SigPubkeyPair
  instructions : List TransactionInstruction
deriving DecidableEq

/-- Default values used with `List.getD` in statements. -/
def emptySigPair : SigPubkeyPair := { signature := none, publicKey := "" }

/-- Default instruction for `List.getD`. -/
def emptyCompiledInstruction : CompiledInstruction :=
  { programIdIndex := 0, accounts := [], data := "" }

/-- Default reconstructed instruction for `List.getD`. -/
def emptyTxInstruction : TransactionInstruction :=
  { keys := [], programId := "", data := [] }

/-- Default key meta for `List.getD`. -/
def emptyKeyMeta : TransactionKeyMeta :=
  { pubkey := "", isSigner := false, isWritable := false }

/-- The `sigPubkeyPair` built for the signature at position `index`:
`null` when the supplied string equals the default public-key encoding,
otherwise its base58 decoding; paired with the account key at the same
index. -/
def mkSigPair (accountKeys : List String) (index : Nat) (signature : String) :
    SigPubkeyPair :=
  { signature :=
      if signature == defaultPublicKeyBase58 then none
      else some (bs58DecodeD signature)
    publicKey := accountKeys.getD index "" }

/-- The `signatures.forEach((signature, index) => ...)` loop. -/
def buildSignatures (accountKeys : List String) :
    List String → Nat → List SigPubkeyPair
  | [], _ => []
  | s :: rest, index =>
      mkSigPair accountKeys index s :: buildSignatures accountKeys rest (index + 1)

/-- Reconstruction of one instruction inside `toTransaction`. -/
def convInstruction (m : WireMessage) (ins : CompiledInstruction) :
    TransactionInstruction :=
  { keys := ins.accounts.map (fun account =>
      { pubkey := m.accountKeys.getD account ""
        isSigner := decide (account < m.numRequiredSignatures)
        isWritable := m.isAccountWritable account })
    programId := m.accountKeys.getD ins.programIdIndex ""
    data := bs58DecodeD ins.data }

/-- `SolanaProvider.toTransaction`. -/
def toTransaction (m : WireMessage) (signatures : List String) : Transaction :=
  { recentBlockhash := m.recentBlockhash
    feePayer :=
      if 0 < m.numRequiredSignatures then some (m.accountKeys.getD 0 "") else none
    signatures := buildSignatures m.accountKeys signatures 0
    instructions := m.instructions.map (convInstruction m) }

/-- JavaScript object assignment `acc[k] = v` on an insertion-ordered
object modelled as an association list: overwrite in place when the key
exists, append otherwise. -/
def objSet (acc : List (String × String)) (k v : String) :
    List (String × String) :=
  if acc.any (fun q => q.1 == k) then
    acc.map (fun q => if q.1 == k then (k, v) else q)
  else acc ++ [(k, v)]

/-- `SolanaProvider.collectSignatures`: the `reduce` that emits an
address → hex-signature pair for every slot carrying a non-null
signature. -/
def collectSignatures (t : Transaction) : List (String × String) :=
  t.signatures.foldl (fun acc cur =>
    match cur.signature with
    | some sig => objSet acc cur.publicKey (bytesToHex sig)
    | none => acc) []

/-! ### Request router (`request` and its dispatch) -/

/-- The payload of `request`. -/
structure SolanaRequest where
  method : String
  params : Option Json

/-- `JSON.stringify({ id: 1, jsonrpc: '2.0', ...payload })` of
`handleReadRequests`, as a JSON object in spread order. -/
def jsonRpcEnvelope (p : SolanaRequest) : Json :=
  .obj ([("id", .num 1), ("jsonrpc", .str "2.0"), ("method", .str p.method)] ++
    (match p.params with
     | some v => [("params", v)]
     | none => []))

/-- The methods the `switch` of `request` names explicitly. -/
def dispatchMethods : List String :=
  ["connect", "getAccounts", "convertToProgramWalletTransaction",
   "signAndSendTransaction", "signTransaction", "signAllTransactions"]

/-- The provider's own mutable fields used by `request`. -/
structure ProviderState where
  /-- session code, set by a successful handshake. -/
  code : Option String
  connected : Bool
  accounts : List String
  server : String
deriving DecidableEq

/-- Outcome of one `request` call: resolved with a value (`none` being
`undefined`), rejected with a reason, or never settling. -/
inductive RequestOutcome where
  | resolved (v : Option Json) : RequestOutcome
  | rejected (e : ProviderError) : RequestOutcome
  | pending : RequestOutcome

/-- How the guard's `connect()` call turns out, determined by the
environment and the cross-context messages that arrive. -/
inductive ConnectOutcome where
  /-- a `FCL::CHALLENGE::RESPONSE` message `{code, addr}` arrives. -/
  | success (code : String) (addr : String) : ConnectOutcome
  /-- a `FCL::CHALLENGE::CANCEL` message arrives. -/
  | canceled : ConnectOutcome
  /-- `typeof window === 'undefined'`. -/
  | environmentFail : ConnectOutcome
  /-- no terminal message ever arrives. -/
  | pending : ConnectOutcome

/-- The external world a single `request` call runs against: the
handshake outcome, the responses of the backend endpoints, and the
public RPC endpoint as an oracle from envelope to response.  The
sign-and-send branch's settled outcome and effect trace are parameters
here; their detailed semantics is `hsstStart` / `runAuthz` below. -/
structure RequestEnv where
  connectOutcome : ConnectOutcome
  /-- `encodeURIComponent(window.location.origin)`. -/
  l6n : String
  /-- accounts returned by `GET /api/solana/accounts`. -/
  fetchedAccounts : List String
  /-- response of `handleConvertTransaction`. -/
  convertResult : Json
  /-- settled outcome of `handleSignAndSendTransaction`. -/
  signOutcome : RequestOutcome
  /-- effect trace of `handleSignAndSendTransaction`. -/
  signEffects : List Effect
  /-- the public RPC endpoint. -/
  rpcOracle : Json → Json

/-- JSON array of account address strings. -/
def accountsJson (l : List String) : Json := .arr (l.map .str)

/-- The authentication URL of `connect`. -/
def authnUrl (server l6n : String) : String :=
  server ++ "/authn?l6n=" ++ l6n ++ "&chain=solana"

/-- The `switch (payload.method)` body of `request`, together with the
trailing `if (response) return response.result; return result;`. -/
def dispatch (st : ProviderState) (env : RequestEnv) (p : SolanaRequest) :
    RequestOutcome × ProviderState × List Effect :=
  if p.method == "connect" then
    (.resolved (some (accountsJson env.fetchedAccounts)),
     { st with accounts := env.fetchedAccounts }, [.accountsFetch])
  else if p.method == "getAccounts" then
    if st.accounts.isEmpty then
      (.resolved (some (accountsJson env.fetchedAccounts)),
       { st with accounts := env.fetchedAccounts }, [.accountsFetch])
    else
      (.resolved (some (accountsJson st.accounts)), st, [])
  else if p.method == "convertToProgramWalletTransaction" then
    (.resolved (some env.convertResult), st, [.convertPost])
  else if p.method == "signAndSendTransaction" then
    (env.signOutcome, st, env.signEffects)
  else if p.method == "signTransaction" || p.method == "signAllTransactions" then
    (.rejected (.unsupportedMethod p.method), st, [])
  else
    -- default: handleReadRequests, then `if (response) return response.result`
    let envl := jsonRpcEnvelope p
    let resp := env.rpcOracle envl
    ((if jsTruthy resp then .resolved (resp.getField "result")
      else .resolved (some .null)),
     st, [.rpcPost envl])

/-- `SolanaProvider.request`: the `if (!this.connected) await this.connect();`
guard followed by the dispatch.  A successful handshake sets `code`,
`connected` and `accounts` exactly as the message listener does. -/
def request (st : ProviderState) (env : RequestEnv) (p : SolanaRequest) :
    RequestOutcome × ProviderState × List Effect :=
  if st.connected then dispatch st env p
  else
    match env.connectOutcome with
    | .environmentFail => (.rejected .environment, st, [])
    | .pending =>
        (.pending, st,
         [.overlayCreate (authnUrl st.server env.l6n), .overlayAttach, .listenerAdd])
    | .canceled =>
        (.rejected .handshakeCanceled, st,
         [.overlayCreate (authnUrl st.server env.l6n), .overlayAttach, .listenerAdd,
          .listenerRemove, .overlayDetach])
    | .success code addr =>
        let stC := { st with code := some code, connected := true, accounts := [addr] }
        let r := dispatch stC env p
        (r.1, r.2.1,
         [.overlayCreate (authnUrl st.server env.l6n), .overlayAttach, .listenerAdd,
          .listenerRemove, .overlayDetach] ++ r.2.2)

/-! ### The start of `connect()` (environment check and overlay setup)

In the source the missing `return` after
`reject('Currently only supported in browser')` means the executor keeps
running and crashes on `window.location.origin` before `createFrame` is
reached; the crash inside an already-settled promise executor is
swallowed, so the observable behaviour in a windowless context is: the
promise rejects with the environment message and no overlay or listener
effect occurs. -/

/-- State of `connect()` right after its synchronous prefix ran. -/
inductive ConnectBegin where
  /-- the promise was rejected with the given reason. -/
  | rejected (reason : String) : ConnectBegin
  /-- overlay attached, one-shot listener registered, promise pending. -/
  | waiting (overlayUrl : String) : ConnectBegin
deriving DecidableEq

/-- The synchronous prefix of `connect()`. -/
def connectStart (hasWindow : Bool) (server l6n : String) :
    ConnectBegin × List Effect :=
  if hasWindow then
    (.waiting (authnUrl server l6n),
     [.overlayCreate (authnUrl server l6n), .overlayAttach, .listenerAdd])
  else
    (.rejected environmentErrorMessage, [])

/-! ### The handshake message listener -/

/-- `'FCL::CHALLENGE::RESPONSE'`. -/
def challengeResponseType : String := "FCL::CHALLENGE::RESPONSE"

/-- `'FCL::CHALLENGE::CANCEL'`. -/
def challengeCancelType : String := "FCL::CHALLENGE::CANCEL"

/-- State of an in-flight handshake: the one-shot listener, the login
overlay, the pending promise and the provider fields the listener
writes. -/
structure HandshakeState where
  listenerActive : Bool
  overlayAttached : Bool
  /-- `none` while the promise is pending. -/
  outcome : Option (Except ProviderError (List String))
  code : Option String
  connected : Bool
  accounts : List String

/-- A delivered `message` event (`origin`, `data.type`, `data.code`,
`data.addr`). -/
structure HsMessageEvent where
  origin : String
  dataType : String
  dataCode : String
  dataAddr : String

/-- A promise settles at most once. -/
def settleOnce {α : Type} (o : Option α) (v : α) : Option α :=
  match o with
  | some w => some w
  | none => some v

/-- Delivery of one `message` event to the handler registered by
`connect` (the two `if (e.data.type === ...)` branches of the source are
mutually exclusive, written here as an if-else chain).  A removed
listener no longer observes events. -/
def handleHandshakeMessage (server : String) (s : HandshakeState)
    (e : HsMessageEvent) : HandshakeState :=
  if !s.listenerActive then s
  else if e.origin == server then
    if e.dataType == challengeResponseType then
      { s with listenerActive := false, overlayAttached := false,
               code := some e.dataCode, connected := true,
               accounts := [e.dataAddr],
               outcome := settleOnce s.outcome (.ok [e.dataAddr]) }
    else if e.dataType == challengeCancelType then
      { s with listenerActive := false, overlayAttached := false,
               outcome := settleOnce s.outcome (.error .handshakeCanceled) }
    else s
  else s

/-! ### `handleSignAndSendTransaction`: authorize POST, overlay, poll loop -/

/-- The URL of the authorization overlay. -/
def authzUrl (server authorizationId : String) : String :=
  server ++ "/authz/solana/" ++ authorizationId

/-- The prefix of `handleSignAndSendTransaction` up to the start of the
poll: the authorize POST is issued (and awaited) before the
`typeof window === 'undefined'` check, so the trace contains it on the
failing path too. -/
def hsstStart (hasWindow : Bool) (server authorizationId : String) :
    List Effect × Except ProviderError Unit :=
  if hasWindow then
    ([.authzPost, .overlayCreate (authzUrl server authorizationId), .overlayAttach],
     .ok ())
  else
    ([.authzPost], .error .environment)

/-- One response of `GET /api/solana/authz?authorizationId=...`. -/
structure PollResponse where
  status : String
  transactionHash : Option String

/-- The `setInterval` period of the status poll, in milliseconds. -/
def pollIntervalMs : Nat := 1000

/-- State of the poll loop: the interval timer, the authorization
overlay, how many status polls were issued (and at which times), and the
promise. -/
structure AuthzState where
  timerActive : Bool
  overlayAttached : Bool
  pollCount : Nat
  /-- times (ms after the poll started) at which polls were issued. -/
  pollTimes : List Nat
  /-- `none` while the promise is pending; resolves with the
  transaction hash, rejects on DECLINED. -/
  outcome : Option (Except ProviderError (Option String))

/-- State right after `setInterval(pollAuthzStatus, 1000)` ran. -/
def initAuthzState : AuthzState :=
  { timerActive := true, overlayAttached := true, pollCount := 0,
    pollTimes := [], outcome := none }

/-- One timer tick: if the interval is still active, `pollAuthzStatus`
runs, and its response (the `n`-th poll gets `f n`) is processed —
APPROVED and DECLINED detach the overlay, clear the interval and settle
the promise; any other status leaves the loop running. -/
def authzTick (f : Nat → PollResponse) (s : AuthzState) : AuthzState :=
  if s.timerActive then
    let r := f s.pollCount
    let s1 := { s with pollCount := s.pollCount + 1,
                       pollTimes := s.pollTimes ++ [(s.pollCount + 1) * pollIntervalMs] }
    if r.status == "APPROVED" then
      { s1 with timerActive := false, overlayAttached := false,
                outcome := settleOnce s1.outcome (.ok r.transactionHash) }
    else if r.status == "DECLINED" then
      { s1 with timerActive := false, overlayAttached := false,
                outcome := settleOnce s1.outcome (.error .transactionCanceled) }
    else s1
  else s

/-- The poll loop after `n` timer ticks. -/
def runAuthz (f : Nat → PollResponse) : Nat → AuthzState
  | 0 => initAuthzState
  | n + 1 => authzTick f (runAuthz f n)

/-! ### The connection guard under concurrent callers

Each `request` call on a not-yet-connected provider evaluates
`if (!this.connected)` and, finding it false, invokes `connect()` —
which creates a fresh overlay and registers a fresh listener.  With no
handshake message delivered in between, `connected` never flips, so the
calls accumulate. -/

/-- World state seen by the guard: the shared `connected` flag and the
accumulated effect trace. -/
structure GuardWorld where
  connected : Bool
  effects : List Effect

/-- One `ensureConnected` evaluation (the guard at the top of
`request`), with no handshake resolution in between. -/
def ensureConnectedStep (server l6n : String) (w : GuardWorld) : GuardWorld :=
  if w.connected then w
  else { w with effects := w.effects ++ (connectStart true server l6n).2 }

/-- `n` concurrent guard evaluations, none of whose handshakes has
resolved yet. -/
def ensureConnectedN (server l6n : String) : Nat → GuardWorld → GuardWorld
  | 0, w => w
  | n + 1, w => ensureConnectedN server l6n n (ensureConnectedStep server l6n w)

/-! ### Sanity checks of the codec primitives -/

example : bs58DecodeD "2" = [1] := by decide
example : bs58DecodeD "3" = [2] := by decide
example : bytesToHex [1] = "01" := by decide
example : bytesToHex [255, 0] = "ff00" := by decide
example : bs58DecodeD defaultPublicKeyBase58 = List.replicate 32 0 := by decide

/-! ## Claims -/

/-- Helper: an inactive timer makes the tick a no-op. -/
theorem authzTick_inactive (f : Nat → PollResponse) (s : AuthzState)
    (h : s.timerActive = false) : authzTick f s = s := by
  simp [authzTick, h]

/-- Claim C1 (code bug): the connection guard does not de-duplicate
concurrent callers.  Two guard evaluations on a fresh provider, before
any handshake message resolves, register two message listeners and
create two login overlays — the spec requires exactly one handshake
flow execution. -/
theorem C1_duplicate_handshakes :
    countListenerAdds
      (ensureConnectedN "https://wallet" "origin" 2
        { connected := false, effects := [] }).effects = 2 ∧
    countOverlayCreates
      (ensureConnectedN "https://wallet" "origin" 2
        { connected := false, effects := [] }).effects = 2 ∧
    (2 : Nat) ≠ 1 := by
  refine ⟨rfl, rfl, by decide⟩

/-- Claim C9: invoked with no rendering surface (`window` undefined),
`connect()` rejects with the environment error and performs none of the
flow's effects — no overlay is created or attached and no listener is
registered. -/
theorem C9_connect_no_window (server l6n : String) :
    connectStart false server l6n = (.rejected environmentErrorMessage, []) ∧
    errorReason ProviderError.environment = some environmentErrorMessage ∧
    environmentErrorMessage = "Currently only supported in browser" ∧
    (∀ u, Effect.overlayCreate u ∉ (connectStart false server l6n).2) ∧
    Effect.listenerAdd ∉ (connectStart false server l6n).2 := by
  refine ⟨rfl, rfl, rfl, ?_, ?_⟩ <;> simp [connectStart]

/-- Claim C10: in `handleSignAndSendTransaction` the authorize POST is
issued before the rendering-surface check, so in a windowless context
the backend request (creating the remote authorization) is still sent
and the call then fails with the environment error — the failure is not
atomic.  No overlay is created on this path. -/
theorem C10_authz_post_before_window_check (server authorizationId : String) :
    hsstStart false server authorizationId =
      ([Effect.authzPost], Except.error ProviderError.environment) ∧
    Effect.authzPost ∈ (hsstStart false server authorizationId).1 ∧
    (∀ u, Effect.overlayCreate u ∉ (hsstStart false server authorizationId).1) ∧
    errorReason ProviderError.environment =
      some "Currently only supported in browser" := by
  refine ⟨rfl, ?_, ?_, rfl⟩ <;> simp [hsstStart]

/-- Helper: as long as every delivered status is non-terminal, the poll
loop keeps running: after `n` ticks it has issued `n` polls at times
`1000, 2000, ..., n * 1000` and the promise is still pending. -/
theorem runAuthz_pending (f : Nat → PollResponse) :
    ∀ n : Nat,
      (∀ k, k < n → (f k).status ≠ "APPROVED" ∧ (f k).status ≠ "DECLINED") →
      runAuthz f n =
        { timerActive := true, overlayAttached := true, pollCount := n,
          pollTimes := (List.range n).map (fun k => (k + 1) * pollIntervalMs),
          outcome := none } := by
  intro n
  induction n with
  | zero => intro h; rfl
  | succ n ih =>
    intro h
    have hn := h n (Nat.lt_succ_self n)
    have hprev := ih (fun k hk => h k (Nat.lt_trans hk (Nat.lt_succ_self n)))
    show authzTick f (runAuthz f n) = _
    rw [hprev]
    simp [authzTick, beq_eq_false_iff_ne.mpr hn.1, beq_eq_false_iff_ne.mpr hn.2,
      List.range_succ]

/-- The status sequence [PENDING, PENDING, APPROVED] with hash "H". -/
def c7Responses : Nat → PollResponse := fun k =>
  if k < 2 then { status := "PENDING", transactionHash := none }
  else { status := "APPROVED", transactionHash := some "H" }

/-- Claim C7: with polled statuses [PENDING, PENDING, APPROVED] carrying
hash "H", the flow issues exactly 3 polls, at the fixed 1000 ms
interval (times 1000, 2000, 3000); it resolves with "H", and after the
third tick — and at every later tick — the timer is inactive and the
authorization overlay is detached, with no further poll ever issued. -/
theorem C7_authz_approved_sequence (n : Nat) :
    runAuthz c7Responses (3 + n) =
      { timerActive := false, overlayAttached := false, pollCount := 3,
        pollTimes := [1000, 2000, 3000],
        outcome := some (Except.ok (some "H")) } ∧
    pollIntervalMs = 1000 := by
  refine ⟨?_, rfl⟩
  induction n with
  | zero =>
    have h2 := runAuthz_pending c7Responses 2 (by decide)
    show authzTick c7Responses (runAuthz c7Responses 2) = _
    rw [h2]
    simp [authzTick, c7Responses, settleOnce, pollIntervalMs, List.range_succ]
  | succ n ih =>
    show authzTick c7Responses (runAuthz c7Responses (3 + n)) = _
    rw [ih]
    rfl

/-- Claim C8: when the first terminal status the poll observes (at poll
index `i`) is DECLINED, the flow rejects with the 'Transaction Canceled'
cancellation reason, and on that terminal branch both the poll timer and
the authorization overlay are released; the terminal transition is
absorbing — every later tick leaves the state unchanged, so the timer
never fires again after the overlay is detached and the promise is
settled. -/
theorem C8_authz_declined_release (f : Nat → PollResponse) (i : Nat)
    (hpre : ∀ k, k < i → (f k).status ≠ "APPROVED" ∧ (f k).status ≠ "DECLINED")
    (hi : (f i).status = "DECLINED") :
    runAuthz f (i + 1) =
      { timerActive := false, overlayAttached := false, pollCount := i + 1,
        pollTimes := (List.range (i + 1)).map (fun k => (k + 1) * pollIntervalMs),
        outcome := some (Except.error ProviderError.transactionCanceled) } ∧
    (∀ m, runAuthz f (i + 1 + m) = runAuthz f (i + 1)) ∧
    errorReason ProviderError.transactionCanceled = some "Transaction Canceled" := by
  have hterm : runAuthz f (i + 1) =
      { timerActive := false, overlayAttached := false, pollCount := i + 1,
        pollTimes := (List.range (i + 1)).map (fun k => (k + 1) * pollIntervalMs),
        outcome := some (Except.error ProviderError.transactionCanceled) } := by
    have hprev := runAuthz_pending f i hpre
    show authzTick f (runAuthz f i) = _
    rw [hprev]
    have hne : (f i).status ≠ "APPROVED" := by rw [hi]; decide
    simp [authzTick, hi, beq_eq_false_iff_ne.mpr hne, settleOnce, List.range_succ]
  refine ⟨hterm, ?_, rfl⟩
  intro m
  induction m with
  | zero => rfl
  | succ m ih =>
    show authzTick f (runAuthz f (i + 1 + m)) = _
    rw [ih, hterm, authzTick_inactive f _ rfl]

/-- Witness for C8: the first poll returns DECLINED — instantiated at a
concrete status stream, the flow has rejected with the cancellation
reason after one tick, timer and overlay both released. -/
theorem C8_authz_declined_release_witness :
    runAuthz (fun _ => { status := "DECLINED", transactionHash := none }) 1 =
      { timerActive := false, overlayAttached := false, pollCount := 1,
        pollTimes := [1000],
        outcome := some (Except.error ProviderError.transactionCanceled) } := by
  have h := C8_authz_declined_release
    (fun _ => { status := "DECLINED", transactionHash := none }) 0
    (fun k hk => absurd hk (Nat.not_lt_zero k)) rfl
  exact h.1

/-- Claim C6: while the one-shot listener is active and the connect
promise pending, a message from the expected service origin of type
"FCL::CHALLENGE::CANCEL" removes the listener, detaches the login
overlay and rejects the promise with the cancellation rejection (whose
reason value is the bare `reject()`); any message from another origin,
or of a type that is neither the response nor the cancel type, leaves
the whole state – listener included – unchanged. -/
theorem C6_cancel_handling (server : String) (s : HandshakeState)
    (hl : s.listenerActive = true) (ho : s.outcome = none) :
    (∀ e : HsMessageEvent, e.origin = server →
      e.dataType = challengeCancelType →
      (handleHandshakeMessage server s e).listenerActive = false ∧
      (handleHandshakeMessage server s e).overlayAttached = false ∧
      (handleHandshakeMessage server s e).outcome =
        some (Except.error ProviderError.handshakeCanceled) ∧
      errorReason ProviderError.handshakeCanceled = none) ∧
    (∀ e : HsMessageEvent,
      e.origin ≠ server ∨
        (e.dataType ≠ challengeResponseType ∧ e.dataType ≠ challengeCancelType) →
      handleHandshakeMessage server s e = s) := by
  constructor
  · intro e h1 h2
    have hne : e.dataType ≠ challengeResponseType := by
      rw [h2]; decide
    refine ⟨?_, ?_, ?_, rfl⟩ <;>
      simp [handleHandshakeMessage, hl, h1, h2, hne, beq_eq_false_iff_ne.mpr hne,
        settleOnce, ho, challengeCancelType, challengeResponseType]
  · intro e h
    rcases h with h | ⟨h1, h2⟩
    · simp [handleHandshakeMessage, hl, beq_eq_false_iff_ne.mpr h]
    · simp [handleHandshakeMessage, hl, beq_eq_false_iff_ne.mpr h1,
        beq_eq_false_iff_ne.mpr h2]

/-- Witness for C6: a concrete pending handshake state and a concrete
cancel message from the service origin — after delivery the listener is
gone, the overlay detached and the promise rejected; a same-state
delivery of a message from a foreign origin changes nothing. -/
theorem C6_cancel_handling_witness :
    (handleHandshakeMessage "https://wallet"
        { listenerActive := true, overlayAttached := true, outcome := none,
          code := none, connected := false, accounts := [] }
        { origin := "https://wallet", dataType := "FCL::CHALLENGE::CANCEL",
          dataCode := "", dataAddr := "" }).outcome =
      some (Except.error ProviderError.handshakeCanceled) ∧
    handleHandshakeMessage "https://wallet"
        { listenerActive := true, overlayAttached := true, outcome := none,
          code := none, connected := false, accounts := [] }
        { origin := "https://evil", dataType := "FCL::CHALLENGE::CANCEL",
          dataCode := "", dataAddr := "" } =
      { listenerActive := true, overlayAttached := true, outcome := none,
        code := none, connected := false, accounts := [] } := by
  have h := C6_cancel_handling "https://wallet"
    { listenerActive := true, overlayAttached := true, outcome := none,
      code := none, connected := false, accounts := [] } rfl rfl
  refine ⟨(h.1 _ rfl rfl).2.2.1, h.2 _ (Or.inl (by decide))⟩

/-- Concrete one-key message for the C3 round-trip evaluation. -/
def c3Msg : WireMessage :=
  { recentBlockhash := "blockhash", numRequiredSignatures := 1,
    accountKeys := ["KeyA"], instructions := [],
    isAccountWritable := fun _ => false }

/-- Claim C3 counterexample: decode-then-encode does not return the
signature string that was supplied.  With account key "KeyA" and the
non-default signature "2" (base58 for the byte 0x01), the encoder emits
the hex re-encoding "01" of the decoded bytes, not "2" — so the
round-trip yields {KeyA: "01"}, not {KeyA: "2"}. -/
theorem C3_roundtrip_counterexample :
    "2" ≠ defaultPublicKeyBase58 ∧
    collectSignatures (toTransaction c3Msg ["2"]) = [("KeyA", "01")] ∧
    collectSignatures (toTransaction c3Msg ["2"]) ≠ [("KeyA", "2")] := by
  refine ⟨by decide, by decide, by decide⟩

/-- Claim C3 (amended): decoding a message with the signature list
[sigA] for the account key A in the first slot and then encoding yields
the single entry {A : hex(bs58decode(sigA))} — the signature re-encoded
in hexadecimal rather than the original base58 string — when sigA is not
the default/empty public-key encoding, and yields no entry for A when
the stored signature was null (i.e. sigA equalled the default
encoding). -/
theorem C3_roundtrip_amended (m : WireMessage) (A sigA : String)
    (hA : m.accountKeys.getD 0 "" = A) :
    collectSignatures (toTransaction m [sigA]) =
      (if sigA == defaultPublicKeyBase58 then []
       else [(A, bytesToHex (bs58DecodeD sigA))]) := by
  subst hA
  by_cases h : sigA == defaultPublicKeyBase58
  · simp [collectSignatures, toTransaction, buildSignatures, mkSigPair, h]
  · simp only [Bool.not_eq_true] at h
    simp [collectSignatures, toTransaction, buildSignatures, mkSigPair, h, objSet]

/-- Witness for the amended C3, at the concrete message `c3Msg`: the
non-default signature case produces the hex entry, the default-signature
case produces no entry. -/
theorem C3_roundtrip_amended_witness :
    collectSignatures (toTransaction c3Msg ["2"]) = [("KeyA", "01")] ∧
    collectSignatures (toTransaction c3Msg [defaultPublicKeyBase58]) = [] := by
  constructor
  · have h := C3_roundtrip_amended c3Msg "KeyA" "2" rfl
    rw [h]; decide
  · have h := C3_roundtrip_amended c3Msg "KeyA" defaultPublicKeyBase58 rfl
    rw [h]; decide

/-- Helper: the signature-building loop preserves length. -/
theorem buildSignatures_length (ak : List String) :
    ∀ (sigs : List String) (n : Nat),
      (buildSignatures ak sigs n).length = sigs.length := by
  intro sigs
  induction sigs with
  | nil => intro n; rfl
  | cons s rest ih => intro n; simp [buildSignatures, ih]

/-- Helper: the entry the signature loop builds at position `i`, when it
started counting at `n`. -/
theorem buildSignatures_getElem? (ak : List String) :
    ∀ (sigs : List String) (n i : Nat),
      (buildSignatures ak sigs n)[i]? =
        (sigs[i]?).map (fun s => mkSigPair ak (n + i) s) := by
  intro sigs
  induction sigs with
  | nil => intro n i; simp [buildSignatures]
  | cons s rest ih =>
    intro n i
    cases i with
    | zero => simp [buildSignatures]
    | succ i =>
      simp only [buildSignatures, List.getElem?_cons_succ]
      rw [ih (n + 1) i]
      have : n + 1 + i = n + (i + 1) := by omega
      rw [this]

/-- Claim C4: decode postconditions of `toTransaction`.  The fee payer
is the first account key exactly when the message declares at least one
required signer; the signature at slot `i` is stored as null exactly
when the supplied string equals the default/empty public-key encoding
and otherwise as its base58 decoding, paired with the account key at the
same index; instruction count and per-instruction account order are
preserved, each reconstructed account is a signer exactly when its index
is below the required-signer count, and its writability is the message's
own writability bitmap at that index. -/
theorem C4_decode_postconditions (m : WireMessage) (sigs : List String) :
    ((toTransaction m sigs).feePayer =
      if 0 < m.numRequiredSignatures then some (m.accountKeys.getD 0 "") else none) ∧
    ((toTransaction m sigs).feePayer.isSome ↔ 0 < m.numRequiredSignatures) ∧
    (toTransaction m sigs).signatures.length = sigs.length ∧
    (∀ (i : Nat) (s : String), sigs[i]? = some s →
      (toTransaction m sigs).signatures[i]? = some
        { signature :=
            if s == defaultPublicKeyBase58 then none else some (bs58DecodeD s)
          publicKey := m.accountKeys.getD i "" }) ∧
    (toTransaction m sigs).instructions.length = m.instructions.length ∧
    (∀ (j : Nat) (ins : CompiledInstruction), m.instructions[j]? = some ins →
      ∀ (tins : TransactionInstruction), (toTransaction m sigs).instructions[j]? = some tins →
        tins.programId = m.accountKeys.getD ins.programIdIndex "" ∧
        tins.data = bs58DecodeD ins.data ∧
        tins.keys.length = ins.accounts.length ∧
        (∀ (k a : Nat), ins.accounts[k]? = some a →
          tins.keys[k]? = some
            { pubkey := m.accountKeys.getD a ""
              isSigner := decide (a < m.numRequiredSignatures)
              isWritable := m.isAccountWritable a })) := by
  refine ⟨rfl, ?_, ?_, ?_, ?_, ?_⟩
  · show (if 0 < m.numRequiredSignatures then
        some (m.accountKeys.getD 0 "") else none).isSome ↔ _
    by_cases h : 0 < m.numRequiredSignatures <;> simp [h]
  · show (buildSignatures m.accountKeys sigs 0).length = _
    exact buildSignatures_length m.accountKeys sigs 0
  · intro i s hs
    show (buildSignatures m.accountKeys sigs 0)[i]? = _
    rw [buildSignatures_getElem? m.accountKeys sigs 0 i, hs]
    simp [mkSigPair]
  · show (m.instructions.map (convInstruction m)).length = _
    simp
  · intro j ins hins tins htins
    have hmap : (m.instructions.map (convInstruction m))[j]? =
        (m.instructions[j]?).map (convInstruction m) :=
      List.getElem?_map (convInstruction m) m.instructions j
    rw [show (toTransaction m sigs).instructions
          = m.instructions.map (convInstruction m) from rfl, hmap, hins] at htins
    have htins2 : convInstruction m ins = tins := by
      exact Option.some.inj htins
    subst htins2
    refine ⟨rfl, rfl, by simp [convInstruction], ?_⟩
    intro k a hka
    show (ins.accounts.map _)[k]? = _
    rw [List.getElem?_map, hka]
    rfl

/-- Concrete message for the C4 witness: two account keys, one required
signer, one instruction touching both keys, account 0 writable. -/
def c4Msg : WireMessage :=
  { recentBlockhash := "rb", numRequiredSignatures := 1,
    accountKeys := ["K0", "K1"],
    instructions := [{ programIdIndex := 1, accounts := [0, 1], data := "2" }],
    isAccountWritable := fun a => a == 0 }

/-- Witness for C4 at `c4Msg` with the signature list ["3"]: the fee
payer is the first key, slot 0 stores the decoded bytes of "3" paired
with "K0", and in the reconstructed instruction account 1 is a
non-signer, non-writable "K1". -/
theorem C4_decode_postconditions_witness :
    (toTransaction c4Msg ["3"]).feePayer = some "K0" ∧
    (toTransaction c4Msg ["3"]).signatures[0]? =
      some { signature := some [2], publicKey := "K0" } ∧
    (toTransaction c4Msg ["3"]).instructions[0]? =
      some (convInstruction c4Msg { programIdIndex := 1, accounts := [0, 1], data := "2" }) ∧
    (convInstruction c4Msg { programIdIndex := 1, accounts := [0, 1], data := "2" }).keys[1]?
      = some { pubkey := "K1", isSigner := false, isWritable := false } := by
  obtain ⟨h1, _, _, h4, _, h6⟩ := C4_decode_postconditions c4Msg ["3"]
  refine ⟨?_, ?_, rfl, ?_⟩
  · rw [h1]; decide
  · have hx := h4 0 "3" rfl
    rw [hx]; decide
  · have hx := h6 0 { programIdIndex := 1, accounts := [0, 1], data := "2" } rfl
      (convInstruction c4Msg { programIdIndex := 1, accounts := [0, 1], data := "2" }) rfl
    have hk := hx.2.2.2 1 1 rfl
    rw [hk]; decide

/-- Helper: a value with a present field is an object, hence truthy. -/
theorem getField_some_truthy (j : Json) (k : String) (r : Json)
    (h : j.getField k = some r) : jsTruthy j = true := by
  cases j <;> simp [Json.getField, jsTruthy] at h ⊢

/-- Claim C2 (amended): for a method outside the dispatch table, and a
connected session, `request` forwards the payload as a JSON-RPC 2.0
envelope with id = 1 to the RPC endpoint; it returns exactly the
`result` field of the JSON-RPC response when that field is present, but
when the response is a (truthy) object with no `result` field it returns
`undefined` — not the full response object — and when the response value
is falsy (e.g. null) it returns null. -/
theorem C2_default_route_amended (st : ProviderState) (env : RequestEnv)
    (p : SolanaRequest) (hc : st.connected = true)
    (hm : p.method ∉ dispatchMethods) :
    request st env p =
      ((if jsTruthy (env.rpcOracle (jsonRpcEnvelope p))
        then RequestOutcome.resolved ((env.rpcOracle (jsonRpcEnvelope p)).getField "result")
        else RequestOutcome.resolved (some Json.null)),
       st, [Effect.rpcPost (jsonRpcEnvelope p)]) ∧
    (jsonRpcEnvelope p).getField "id" = some (Json.num 1) ∧
    (jsonRpcEnvelope p).getField "jsonrpc" = some (Json.str "2.0") ∧
    (jsonRpcEnvelope p).getField "method" = some (Json.str p.method) ∧
    (∀ r : Json, (env.rpcOracle (jsonRpcEnvelope p)).getField "result" = some r →
      (request st env p).1 = RequestOutcome.resolved (some r)) := by
  have h1 : p.method ≠ "connect" := fun h => hm (by simp [dispatchMethods, h])
  have h2 : p.method ≠ "getAccounts" := fun h => hm (by simp [dispatchMethods, h])
  have h3 : p.method ≠ "convertToProgramWalletTransaction" :=
    fun h => hm (by simp [dispatchMethods, h])
  have h4 : p.method ≠ "signAndSendTransaction" :=
    fun h => hm (by simp [dispatchMethods, h])
  have h5 : p.method ≠ "signTransaction" := fun h => hm (by simp [dispatchMethods, h])
  have h6 : p.method ≠ "signAllTransactions" :=
    fun h => hm (by simp [dispatchMethods, h])
  have hmain : request st env p =
      ((if jsTruthy (env.rpcOracle (jsonRpcEnvelope p))
        then RequestOutcome.resolved ((env.rpcOracle (jsonRpcEnvelope p)).getField "result")
        else RequestOutcome.resolved (some Json.null)),
       st, [Effect.rpcPost (jsonRpcEnvelope p)]) := by
    simp [request, hc, dispatch, beq_eq_false_iff_ne.mpr h1,
      beq_eq_false_iff_ne.mpr h2, beq_eq_false_iff_ne.mpr h3,
      beq_eq_false_iff_ne.mpr h4, beq_eq_false_iff_ne.mpr h5,
      beq_eq_false_iff_ne.mpr h6]
  refine ⟨hmain, rfl, rfl, rfl, ?_⟩
  intro r hr
  rw [hmain]
  simp [getField_some_truthy _ _ _ hr, hr]

/-- Connected provider state for the C2 evaluations. -/
def c2St : ProviderState :=
  { code := some "sess", connected := true, accounts := ["addr"], server := "srv" }

/-- Environment whose RPC endpoint answers with a `result` field. -/
def c2EnvOk : RequestEnv :=
  { connectOutcome := .pending, l6n := "", fetchedAccounts := [],
    convertResult := .null, signOutcome := .pending, signEffects := [],
    rpcOracle := fun _ => Json.obj [("result", Json.str "ok")] }

/-- Environment whose RPC endpoint answers with an object that has no
`result` field. -/
def c2EnvNoResult : RequestEnv :=
  { connectOutcome := .pending, l6n := "", fetchedAccounts := [],
    convertResult := .null, signOutcome := .pending, signEffects := [],
    rpcOracle := fun _ => Json.obj [("error", Json.str "boom")] }

/-- Witness for the amended C2: with a response carrying a `result`
field, the call resolves with exactly that field. -/
theorem C2_default_route_amended_witness :
    (request c2St c2EnvOk { method := "getBalance", params := none }).1 =
      RequestOutcome.resolved (some (Json.str "ok")) := by
  have h := C2_default_route_amended c2St c2EnvOk
    { method := "getBalance", params := none } rfl (by decide)
  exact h.2.2.2.2 (Json.str "ok") rfl

/-- Claim C2 counterexample: when the JSON-RPC response has no `result`
field, `request` resolves with `undefined` (`response.result` on an
object without the key), not with the full response object as the claim
states. -/
theorem C2_no_result_counterexample :
    (request c2St c2EnvNoResult { method := "getBalance", params := none }).1 =
      RequestOutcome.resolved none ∧
    (Json.obj [("error", Json.str "boom")]).getField "result" = none ∧
    (request c2St c2EnvNoResult { method := "getBalance", params := none }).1 ≠
      RequestOutcome.resolved (some (Json.obj [("error", Json.str "boom")])) := by
  refine ⟨rfl, rfl, ?_⟩
  intro h
  rw [show (request c2St c2EnvNoResult { method := "getBalance", params := none }).1 =
      RequestOutcome.resolved none from rfl] at h
  simp at h

/-- Claim C5 (amended): whenever the connection guard completes — the
provider is already connected, or the handshake resolves successfully —
`request` with method "signTransaction" or "signAllTransactions" rejects
with the unsupported-operation error whose message names the method and
directs the caller to `signAndSendTransaction`; on those calls the only
effects are the login overlay and its listener (no signing, no network
request).  (When the guard itself fails, the call instead fails with the
guard's outcome — see the counterexample.) -/
theorem C5_sign_methods_rejected (st : ProviderState) (env : RequestEnv)
    (meth : String) (ps : Option Json)
    (hm : meth = "signTransaction" ∨ meth = "signAllTransactions")
    (hready : st.connected = true ∨
      ∃ c a, env.connectOutcome = ConnectOutcome.success c a) :
    (request st env { method := meth, params := ps }).1 =
      RequestOutcome.rejected (ProviderError.unsupportedMethod meth) ∧
    ((request st env { method := meth, params := ps }).2.2).all isUiEffect = true ∧
    errorReason (ProviderError.unsupportedMethod meth) =
      some ("Blocto is program wallet, which doesn" ++ apos ++ "t support "
        ++ meth ++ ". Use signAndSendTransaction instead.") := by
  have hd : ∀ s : ProviderState, dispatch s env { method := meth, params := ps } =
      (RequestOutcome.rejected (ProviderError.unsupportedMethod meth), s, []) := by
    intro s
    rcases hm with rfl | rfl <;> rfl
  refine ⟨?_, ?_, rfl⟩
  · by_cases hcon : st.connected = true
    · simp [request, hcon, hd]
    · rcases hready with hc | ⟨c, a, hc⟩
      · exact absurd hc hcon
      · have hcf : st.connected = false := by
          simpa using hcon
        simp [request, hcf, hc, hd]
  · by_cases hcon : st.connected = true
    · simp [request, hcon, hd]
    · rcases hready with hc | ⟨c, a, hc⟩
      · exact absurd hc hcon
      · have hcf : st.connected = false := by
          simpa using hcon
        simp [request, hcf, hc, hd, isUiEffect]

/-- Fresh, never-connected provider state. -/
def c5FreshState : ProviderState :=
  { code := none, connected := false, accounts := [], server := "srv" }

/-- Environment in which the handshake is canceled by the remote actor. -/
def c5CancelEnv : RequestEnv :=
  { connectOutcome := .canceled, l6n := "", fetchedAccounts := [],
    convertResult := .null, signOutcome := .pending, signEffects := [],
    rpcOracle := fun _ => .null }

/-- Witness for the amended C5: on a connected provider the call rejects
with the unsupported-operation error. -/
theorem C5_sign_methods_rejected_witness :
    (request c2St c5CancelEnv { method := "signTransaction", params := none }).1 =
      RequestOutcome.rejected (ProviderError.unsupportedMethod "signTransaction") ∧
    errorReason (ProviderError.unsupportedMethod "signTransaction") =
      some ("Blocto is program wallet, which doesn" ++ apos ++ "t support "
        ++ "signTransaction" ++ ". Use signAndSendTransaction instead.") := by
  have h := C5_sign_methods_rejected c2St c5CancelEnv "signTransaction" none
    (Or.inl rfl) (Or.inl rfl)
  exact ⟨h.1, h.2.2⟩

/-- Claim C5 counterexample: on a not-yet-connected provider whose
handshake is canceled, `request({method: "signTransaction"})` rejects
with the handshake cancellation, not with the unsupported-operation
error — so the rejection is not independent of connection state. -/
theorem C5_counterexample :
    (request c5FreshState c5CancelEnv { method := "signTransaction", params := none }).1 =
      RequestOutcome.rejected ProviderError.handshakeCanceled ∧
    (request c5FreshState c5CancelEnv { method := "signTransaction", params := none }).1 ≠
      RequestOutcome.rejected (ProviderError.unsupportedMethod "signTransaction") := by
  refine ⟨rfl, ?_⟩
  intro h
  rw [show (request c5FreshState c5CancelEnv
      { method := "signTransaction", params := none }).1 =
      RequestOutcome.rejected ProviderError.handshakeCanceled from rfl] at h
  simp at h
